import Mathlib

/-!
Verification of the LexNormAI repository (Next.js frontend over a FastAPI
backend).  The frontend pages (upload, content, mapping) are embedded from
their TypeScript source; the backend mapping service and the standards-CSV
importer are not part of the checked-out sources, so they are modelled from
the specification text, as marked on each such definition.

JavaScript string primitives used by the pages (`trim`, `toLowerCase`,
template literals, the underscore-replace regex) are embedded as executable
character-list functions so that concrete runs reduce inside the kernel.
-/

namespace LexNorm

/-- LexNormStandard, the occupational-standard record exposed by the API and
rendered by the frontend tables and exports. -/
structure LexNormStandard where
  job_role : String
  nos_code : String
  nos_name : String
  pc_code : String
  pc_description : String
deriving DecidableEq, Repr

/-- MappedStandardDetail: one LLM match in the richer response shape
(a standard plus confidence, reasoning and optional gap analysis). -/
structure MappedStandardDetail where
  standard : LexNormStandard
  confidence_score : Nat
  reasoning : String
  gap_analysis : Option String
deriving DecidableEq, Repr

/-- ContentMappingResponse in the richer shape used by src/unnamed/part_000
and by MappingResult.mapping_data in src/frontend/app/content/page.tsx. -/
structure ContentMappingResponse where
  mapped_standards : List MappedStandardDetail
  overall_confidence_score : Option Nat
  overall_gap_analysis : Option String
  summary_used : String
deriving DecidableEq, Repr

/-- CourseContent as stored by the backend and consumed by the pages:
uploaded text plus an optional AI-generated summary. -/
structure CourseContent where
  id : Nat
  title : String
  content : String
  summary : Option String
deriving DecidableEq, Repr

/-- One entry of the parsed LLM mapping response, before the catalog
cross-reference (hallucination guard) is applied. -/
structure LlmEntry where
  standard_code : String
  criterion_code : String
  confidence_score : Nat
  reasoning : String
  gap_analysis : Option String
deriving DecidableEq, Repr

/-- The parsed structured output of one LLM mapping call. -/
structure LlmMapResponse where
  entries : List LlmEntry
  overall_confidence_score : Option Nat
  overall_gap_analysis : Option String
deriving DecidableEq, Repr

/-- A persisted MappingResult row (backend side). -/
structure MappingRecord where
  content_id : Nat
  job_role_filter : Option String
  overall_confidence_score : Option Nat
  overall_gap_analysis : Option String
  mapped_standards : List MappedStandardDetail
  summary_used : String
deriving DecidableEq, Repr

/-- The relational store visible to the mapping operation: course contents,
the standards catalog, and the persisted mapping results. -/
structure Db where
  contents : List CourseContent
  catalog : List LexNormStandard
  results : List MappingRecord
deriving DecidableEq, Repr

/-- Failure modes of the mapping operation. -/
inductive MapError where
  | contentNotFound
  | missingSummary
  | llmFailure
deriving DecidableEq, Repr

/-- One raw CSV row of the standards import (headers Job Role, NOS Code,
NOS Name, PC code, PC Description). -/
structure RawRow where
  job_role : String
  nos_code : String
  nos_name : String
  pc_code : String
  pc_description : String
deriving DecidableEq, Repr

/-- A selected file on the upload page: its byte size and MIME type. -/
structure UploadFile where
  size : Nat
  ftype : String
deriving DecidableEq, Repr

/-- The upload form state of src/frontend/app/upload/page.tsx. -/
structure UploadForm where
  title : String
  content : String
  file : Option UploadFile
deriving DecidableEq, Repr

/-- Outcome of submitting the upload form: a surfaced validation error (no
request issued), a file-upload request, or a manual-content create request. -/
inductive SubmitOutcome where
  | validationError (msg : String)
  | uploadFileRequest (f : UploadFile) (title : String)
  | createManualRequest (title content : String)
deriving DecidableEq, Repr

/-- One observable jsPDF action of the PDF export in src/unnamed/part_000:
a `doc.text(s, x, y)` call (x is a constant margin and is dropped) or a
`doc.addPage()` call. -/
inductive PdfEvent where
  | text (s : String) (y : Nat)
  | newPage
deriving DecidableEq, Repr

/-! ### Executable character-level string helpers (JS semantics) -/

/-- Whether `pat` is a leading segment of `l`. -/
def startsList (pat l : List Char) : Bool :=
  match pat, l with
  | [], _ => true
  | _ :: _, [] => false
  | p :: ps, c :: cs => p == c && startsList ps cs

/-- Whether `pat` occurs contiguously somewhere in the second list
(substring containment on character lists). -/
def containsList (pat : List Char) : List Char → Bool
  | [] => pat.isEmpty
  | c :: cs => startsList pat (c :: cs) || containsList pat cs

/-- Substring containment on strings (case-sensitive). -/
def strContains (hay pat : String) : Bool :=
  containsList pat.data hay.data

/-- JavaScript `String.prototype.trim`: strip leading and trailing
whitespace, embedded executably on the character list. -/
def jsTrimChars (l : List Char) : List Char :=
  ((l.dropWhile Char.isWhitespace).reverse.dropWhile Char.isWhitespace).reverse

/-- JavaScript `s.trim()`. -/
def jsTrim (s : String) : String := String.mk (jsTrimChars s.data)

/-- ASCII lower-casing of one character (JS `toLowerCase` on the ASCII
range, which is all the catalog codes and role names use). -/
def asciiLowerChar (c : Char) : Char :=
  if 'A' ≤ c ∧ c ≤ 'Z' then Char.ofNat (c.toNat + 32) else c

/-- ASCII `s.toLowerCase()`. -/
def asciiLower (s : String) : String := String.mk (s.data.map asciiLowerChar)

/-- Case-insensitive substring containment, as the job-role filter uses. -/
def strContainsCI (hay needle : String) : Bool :=
  containsList (asciiLower needle).data (asciiLower hay).data

/-- Split a character list at every occurrence of `sep`; a list of n
separators yields n+1 parts (the behaviour of splitting text into lines or
a line into comma-separated cells). -/
def splitOnChar (sep : Char) : List Char → List (List Char)
  | [] => [[]]
  | c :: rest =>
    match splitOnChar sep rest with
    | [] => [[]]
    | cur :: parts => if c = sep then [] :: cur :: parts else (c :: cur) :: parts

/-- JavaScript `x || dflt` on an optional string: the default replaces both
an absent and an empty (falsy) value. -/
def jsOrElse (o : Option String) (dflt : String) : String :=
  match o with
  | some s => if s = "" then dflt else s
  | none => dflt

/-- JavaScript truthiness of an optional string: present and non-empty. -/
def jsTruthyStr (o : Option String) : Bool :=
  match o with
  | some s => s != ""
  | none => false

/-- Rendering of the optional overall confidence score, toFixed(1) with an
N/A fallback, for the
integer-valued scores the model is asked to produce. -/
def confDisplay (o : Option Nat) : String :=
  match o with
  | some n => toString n ++ ".0"
  | none => "N/A"

/-! ### CSV export, current 8-column form
(src/frontend/app/content/page.tsx lines 444-466, exportMappingResults;
src/unnamed/part_000 lines 93-115, exportResults) -/

/-- One emitted CSV cell: the value wrapped in double quotes with no
escaping (the template literal on content/page.tsx line 458 and
part_000 line 107). -/
def quoteCell (cell : String) : String := "\"" ++ cell ++ "\""

/-- The header row of the 8-column CSV export. -/
def csvHeaderRow : List String :=
  ["Job Role", "NOS Code", "NOS Name", "PC Code", "PC Description",
   "Confidence Score", "Reasoning", "Gap Analysis"]

/-- The cell values of one detail row of the 8-column CSV export. -/
def csvDetailRow (d : MappedStandardDetail) : List String :=
  [d.standard.job_role, d.standard.nos_code, d.standard.nos_name,
   d.standard.pc_code, d.standard.pc_description,
   toString d.confidence_score, d.reasoning, d.gap_analysis.getD ""]

/-- Quote every cell of a row and join the cells with commas. -/
def csvLine (row : List String) : String :=
  String.intercalate "," (row.map quoteCell)

/-- The full CSV text of exportMappingResults (content/page.tsx): header row
plus one row per MappedStandardDetail, rows joined with newline. -/
def exportMappingResultsCsv (details : List MappedStandardDetail) : String :=
  String.intercalate "\n" ((csvHeaderRow :: details.map csvDetailRow).map csvLine)

/-- The full CSV text of exportResults in src/unnamed/part_000 (same header,
same 8 columns, same quoting). -/
def exportResultsCsv (details : List MappedStandardDetail) : String :=
  String.intercalate "\n" ((csvHeaderRow :: details.map csvDetailRow).map csvLine)

/-! ### CSV export, older 5-column form
(src/frontend/app/mapping/page.tsx lines 89-110, exportResults) -/

/-- One emitted cell of the older export: the value wrapped in the literal
text `&quot;` on both sides (mapping/page.tsx line 101). -/
def oldQuoteCell (cell : String) : String := "&quot;" ++ cell ++ "&quot;"

/-- The header row of the older 5-column CSV export. -/
def oldCsvHeaderRow : List String :=
  ["Job Role", "NOS Code", "NOS Name", "PC Code", "PC Description"]

/-- The cell values of one row of the older export: the flat standard
fields only. -/
def oldCsvRow (s : LexNormStandard) : List String :=
  [s.job_role, s.nos_code, s.nos_name, s.pc_code, s.pc_description]

/-- Wrap every cell of a row in the older literal and join with commas. -/
def oldCsvLine (row : List String) : String :=
  String.intercalate "," (row.map oldQuoteCell)

/-- The full CSV text of the older exportResults (mapping/page.tsx). -/
def exportResultsOldCsv (standards : List LexNormStandard) : String :=
  String.intercalate "\n" ((oldCsvHeaderRow :: standards.map oldCsvRow).map oldCsvLine)

/-! ### Export file names -/

/-- One character of the underscore-replace regex applied to the title:
ASCII letters and
digits are kept, every other character becomes an underscore. -/
def sanitizeChar (c : Char) : Char := if c.isAlphanum then c else '_'

/-- The sanitised title used in every export file name (the replace call is
character-wise, embedded on the character list). -/
def sanitizeTitle (t : String) : String := String.mk (t.data.map sanitizeChar)

/-- CSV download name (content/page.tsx line 464, part_000 line 113). -/
def csvFileName (title : String) : String :=
  "mapping_results_" ++ sanitizeTitle title ++ ".csv"

/-- Text-document download name (content/page.tsx line 508). -/
def txtFileName (title : String) : String :=
  "mapping_results_" ++ sanitizeTitle title ++ ".txt"

/-- PDF download name (part_000 line 227). -/
def pdfFileName (title : String) : String :=
  "mapping_results_" ++ sanitizeTitle title ++ ".pdf"

/-! ### Text document export
(src/frontend/app/content/page.tsx lines 467-511, exportMappingResults,
pdf branch: one template literal saved as a .txt blob) -/

/-- The 40-character separator line of the text document template. -/
def sepLine : String := "========================================"

/-- The 40-character dash line under each detail heading. -/
def dashLine : String := "----------------------------------------"

/-- One per-match block of the text document (the inner template literal of
content/page.tsx lines 482-491), including its trailing newline. -/
def detailBlockTxt (i : Nat) (d : MappedStandardDetail) : String :=
  toString (i + 1) ++ ". " ++ d.standard.job_role ++ "\n" ++
  dashLine ++ "\n" ++
  "NOS Code: " ++ d.standard.nos_code ++ "\n" ++
  "NOS Name: " ++ d.standard.nos_name ++ "\n" ++
  "PC Code: " ++ d.standard.pc_code ++ "\n" ++
  "PC Description: " ++ d.standard.pc_description ++ "\n" ++
  "Confidence Score: " ++ toString d.confidence_score ++ "%\n" ++
  "Reasoning: " ++ d.reasoning ++ "\n" ++
  "Gap Analysis: " ++ jsOrElse d.gap_analysis "N/A" ++ "\n"

/-- The whole text document, transcribed from the template literal of
content/page.tsx lines 469-502.  `generatedAt` stands for the rendered
`new Date(mappingResult.created_at).toLocaleString()`. -/
def exportMappingResultsTxt (title : String) (jrf : Option String)
    (generatedAt : String) (data : ContentMappingResponse) : String :=
  "CONTENT MAPPING RESULTS\n" ++ sepLine ++ "\n\n" ++
  "Content: " ++ title ++ "\n" ++
  "Overall Confidence: " ++ confDisplay data.overall_confidence_score ++ "%\n" ++
  "Standards Found: " ++ toString data.mapped_standards.length ++ "\n" ++
  "Generated: " ++ generatedAt ++ "\n" ++
  "Job Role Filter: " ++ jsOrElse jrf "None" ++ "\n\n" ++
  "DETAILED MAPPING RESULTS\n" ++ sepLine ++ "\n\n" ++
  String.intercalate "\n"
    (data.mapped_standards.enum.map (fun p => detailBlockTxt p.1 p.2)) ++
  "\n\n" ++
  (if jsTruthyStr data.overall_gap_analysis then
    "\nOVERALL GAP ANALYSIS\n" ++ sepLine ++ "\n" ++
    data.overall_gap_analysis.getD "" ++ "\n\n"
  else "") ++
  "\nCONTENT SUMMARY USED FOR MAPPING\n" ++ sepLine ++ "\n" ++
  data.summary_used

/-- The header block of the text document: title, overall confidence, count,
timestamp and job-role filter, up to and including the detailed-results
heading. -/
def txtHeaderBlock (title : String) (jrf : Option String)
    (generatedAt : String) (data : ContentMappingResponse) : String :=
  "CONTENT MAPPING RESULTS\n" ++ sepLine ++ "\n\n" ++
  "Content: " ++ title ++ "\n" ++
  "Overall Confidence: " ++ confDisplay data.overall_confidence_score ++ "%\n" ++
  "Standards Found: " ++ toString data.mapped_standards.length ++ "\n" ++
  "Generated: " ++ generatedAt ++ "\n" ++
  "Job Role Filter: " ++ jsOrElse jrf "None" ++ "\n\n" ++
  "DETAILED MAPPING RESULTS\n" ++ sepLine ++ "\n\n"

/-- The per-match detail blocks of the text document, in list order. -/
def txtDetailsBlock (details : List MappedStandardDetail) : String :=
  String.intercalate "\n" (details.enum.map (fun p => detailBlockTxt p.1 p.2)) ++ "\n\n"

/-- The overall gap-analysis block of the text document (empty when the
field is absent or empty). -/
def txtGapBlock (g : Option String) : String :=
  if jsTruthyStr g then
    "\nOVERALL GAP ANALYSIS\n" ++ sepLine ++ "\n" ++ g.getD "" ++ "\n\n"
  else ""

/-- The summary-used block closing the text document. -/
def txtSummaryBlock (s : String) : String :=
  "\nCONTENT SUMMARY USED FOR MAPPING\n" ++ sepLine ++ "\n" ++ s

/-! ### PDF export model
(src/unnamed/part_000 lines 116-228, exportResults, pdf branch).  The jsPDF
calls are traced as `PdfEvent`s; `splitTextToSize` depends on font metrics,
so it is a parameter `split` of the model (for a string that fits on one
line jsPDF returns the one-element list). -/

/-- Emit a run of wrapped lines, each advancing the cursor by 6, with no
page-break check (the inner loops of the detail blocks). -/
def emitRunLines (ls : List String) (y : Nat) : List PdfEvent × Nat :=
  match ls with
  | [] => ([], y)
  | s :: rest =>
    let p := emitRunLines rest (y + 6)
    (PdfEvent.text s y :: p.1, p.2)

/-- Emit the overall-gap lines, breaking to a new page before any line when
the cursor exceeds 280 (part_000 lines 215-222). -/
def emitGapLines (ls : List String) (y : Nat) : List PdfEvent × Nat :=
  match ls with
  | [] => ([], y)
  | s :: rest =>
    let brk : List PdfEvent × Nat := if 280 < y then ([PdfEvent.newPage], 20) else ([], y)
    let p := emitGapLines rest (brk.2 + 6)
    (brk.1 ++ PdfEvent.text s brk.2 :: p.1, p.2)

/-- JS `arr[0]` interpolated into a template: `undefined` when the array is
empty. -/
def firstLineOr (ls : List String) : String :=
  match ls with
  | [] => "undefined"
  | s :: _ => s

/-- The body of one detail block of the PDF export (part_000 lines
154-198, after the page-break check): the numbered role, the code lines,
the wrapped description, the confidence line, the wrapped reasoning and,
when truthy, the wrapped gap analysis; finally the cursor advances by 5. -/
def pdfDetailBody (split : String → List String) (i : Nat)
    (d : MappedStandardDetail) (y1 : Nat) : List PdfEvent × Nat :=
  let descLines := split d.standard.pc_description
  let afterDesc := emitRunLines descLines.tail (y1 + 8 + 6 + 6 + 6 + 6)
  let afterReason :=
    emitRunLines (split ("Reasoning: " ++ d.reasoning)) (afterDesc.2 + 6)
  let afterGap :=
    if jsTruthyStr d.gap_analysis then
      emitRunLines (split ("Gap Analysis: " ++ d.gap_analysis.getD "")) afterReason.2
    else ([], afterReason.2)
  ([PdfEvent.text (toString (i + 1) ++ ". " ++ d.standard.job_role) y1,
    PdfEvent.text ("NOS Code: " ++ d.standard.nos_code) (y1 + 8),
    PdfEvent.text ("NOS Name: " ++ d.standard.nos_name) (y1 + 8 + 6),
    PdfEvent.text ("PC Code: " ++ d.standard.pc_code) (y1 + 8 + 6 + 6),
    PdfEvent.text ("PC Description: " ++ firstLineOr descLines) (y1 + 8 + 6 + 6 + 6)] ++
   afterDesc.1 ++
   [PdfEvent.text ("Confidence Score: " ++ toString d.confidence_score ++ "%") afterDesc.2] ++
   afterReason.1 ++ afterGap.1,
   afterGap.2 + 5)

/-- One detail block of the PDF export (the forEach body, part_000 lines
147-199): break to a new page first exactly when the cursor exceeds 250
(resetting it to 20), then emit the block body. -/
def pdfDetailEvents (split : String → List String) (i : Nat)
    (d : MappedStandardDetail) (y0 : Nat) : List PdfEvent × Nat :=
  if 250 < y0 then
    let p := pdfDetailBody split i d 20
    (PdfEvent.newPage :: p.1, p.2)
  else
    pdfDetailBody split i d y0

/-- All detail blocks in list order, threading the cursor. -/
def pdfDetailsEvents (split : String → List String) :
    List MappedStandardDetail → Nat → Nat → List PdfEvent × Nat
  | [], _, y => ([], y)
  | d :: rest, i, y =>
    let p := pdfDetailEvents split i d y
    let q := pdfDetailsEvents split rest (i + 1) p.2
    (p.1 ++ q.1, q.2)

/-- The PDF header block (part_000 lines 121-145): document title, content
title, overall confidence, count, timestamp and the detailed-results
heading; leaves the cursor at 100. -/
def pdfHeaderEvents (title : Option String) (data : ContentMappingResponse)
    (generatedAt : String) : List PdfEvent × Nat :=
  ([PdfEvent.text "CONTENT MAPPING RESULTS" 20,
    PdfEvent.text ("Content: " ++ jsOrElse title "Unknown") 35,
    PdfEvent.text ("Overall Confidence: " ++ confDisplay data.overall_confidence_score ++ "%") 45,
    PdfEvent.text ("Standards Found: " ++ toString data.mapped_standards.length) 55,
    PdfEvent.text ("Generated: " ++ generatedAt) 65,
    PdfEvent.text "DETAILED MAPPING RESULTS" 85], 100)

/-- The overall gap-analysis block of the PDF export (part_000 lines
202-224): emitted only when the field is truthy, with its own page-break
thresholds (200 before the heading, 280 before each wrapped line). -/
def pdfGapEvents (split : String → List String) (g : Option String)
    (y : Nat) : List PdfEvent × Nat :=
  if jsTruthyStr g then
    let brk : List PdfEvent × Nat := if 200 < y then ([PdfEvent.newPage], 20) else ([], y)
    let p := emitGapLines (split (g.getD "")) (brk.2 + 15)
    (brk.1 ++ PdfEvent.text "OVERALL GAP ANALYSIS" brk.2 :: p.1, p.2 + 10)
  else ([], y)

/-- The full event trace of the PDF export: header, then the detail blocks,
then the overall gap-analysis block; nothing else is emitted (in
particular no job-role-filter line and no summary-used block). -/
def pdfExportEvents (split : String → List String) (title : Option String)
    (data : ContentMappingResponse) (generatedAt : String) : List PdfEvent :=
  let h := pdfHeaderEvents title data generatedAt
  let d := pdfDetailsEvents split data.mapped_standards 0 h.2
  let g := pdfGapEvents split data.overall_gap_analysis d.2
  h.1 ++ d.1 ++ g.1

/-! ### Upload page validation
(src/frontend/app/upload/page.tsx lines 28-53 handleFileSelect and
lines 81-118 handleSubmit) -/

/-- The accepted MIME types of the upload page. -/
def allowedTypes : List String := ["text/plain", "application/pdf", "text/markdown"]

/-- handleFileSelect: reject an oversized file (more than 10MB) or an
unsupported type with a surfaced error and an unchanged form; otherwise
attach the file.  The returned option is the surfaced error message. -/
def handleFileSelect (fd : UploadForm) (f : UploadFile) : UploadForm × Option String :=
  if 10 * 1024 * 1024 < f.size then
    (fd, some "File size must be less than 10MB")
  else if !(allowedTypes.contains f.ftype) then
    (fd, some "Only text (.txt), PDF (.pdf), and Markdown (.md) files are supported")
  else
    ({ fd with file := some f }, none)

/-- handleSubmit: surface a validation error (issuing no request) when the
trimmed title is empty, or when no file is attached and the trimmed manual
content is empty; otherwise issue the file-upload request when a file is
attached, else the manual-create request. -/
def handleSubmit (fd : UploadForm) : SubmitOutcome :=
  if jsTrim fd.title = "" then
    SubmitOutcome.validationError "Please provide a title for the content"
  else if fd.file.isNone && jsTrim fd.content = "" then
    SubmitOutcome.validationError "Please either upload a file or enter content manually"
  else
    match fd.file with
    | some f => SubmitOutcome.uploadFileRequest f fd.title
    | none => SubmitOutcome.createManualRequest fd.title fd.content

/-! ### Mapping service (backend) -/

/-- Modelled from the spec: candidate selection of the Mapping Service
(section 4.2) — the backend service code is not among the checked-out
sources.  With a job-role filter the catalog is restricted to records whose
job_role contains the filter string case-insensitively; otherwise the full
catalog is considered. -/
def selectCandidates (catalog : List LexNormStandard) (jrf : Option String) :
    List LexNormStandard :=
  match jrf with
  | some f => catalog.filter (fun s => strContainsCI s.job_role f)
  | none => catalog

/-- Modelled from the spec: the hallucination guard (section 4.2) — an LLM
entry is kept only when its standard_code/criterion_code pair matches a
candidate catalog record, and the kept detail is built on that record. -/
def matchEntry (candidates : List LexNormStandard) (e : LlmEntry) :
    Option MappedStandardDetail :=
  match candidates.find? (fun s => s.nos_code == e.standard_code && s.pc_code == e.criterion_code) with
  | some s => some ⟨s, e.confidence_score, e.reasoning, e.gap_analysis⟩
  | none => none

/-- Modelled from the spec: `mapContent(content_id, settings_id,
job_role_filter)` of the Mapping Service (section 4.2) — the backend route
is not among the checked-out sources.  The content must resolve and carry a
non-empty summary, else the operation fails with the missing-summary
precondition error and nothing is persisted.  Zero candidates persist a
result with an empty mapped_standards list without calling the LLM.  The
LLM outcome is the `llm` argument (`none` = call failure, nothing
persisted).  On success a new MappingRecord snapshotting the summary is
appended to the stored results.  `settings_id` only selects the prompt and
model sent to the LLM, which the model abstracts away. -/
def mapContent (db : Db) (llm : Option LlmMapResponse) (content_id : Nat)
    (settings_id : Option Nat) (jrf : Option String) :
    Db × Except MapError MappingRecord :=
  match db.contents.find? (fun c => c.id == content_id) with
  | none => (db, Except.error MapError.contentNotFound)
  | some c =>
    match c.summary with
    | none => (db, Except.error MapError.missingSummary)
    | some summ =>
      if summ = "" then (db, Except.error MapError.missingSummary)
      else
        let candidates := selectCandidates db.catalog jrf
        if candidates.isEmpty then
          let r : MappingRecord := ⟨content_id, jrf, none, none, [], summ⟩
          ({ db with results := db.results ++ [r] }, Except.ok r)
        else
          match llm with
          | none => (db, Except.error MapError.llmFailure)
          | some resp =>
            let r : MappingRecord :=
              ⟨content_id, jrf, resp.overall_confidence_score,
               resp.overall_gap_analysis,
               resp.entries.filterMap (matchEntry candidates), summ⟩
            ({ db with results := db.results ++ [r] }, Except.ok r)

/-! ### Standards CSV importer (backend) -/

/-- Modelled from the spec: whitespace-trim every field of a raw row
(section 4.1: trim whitespace on all fields) — the import script is not
among the checked-out sources. -/
def trimRow (r : RawRow) : RawRow :=
  ⟨jsTrim r.job_role, jsTrim r.nos_code, jsTrim r.nos_name,
   jsTrim r.pc_code, jsTrim r.pc_description⟩

/-- Modelled from the spec: whether the three leading fields of a (trimmed)
row are blank, the trigger of the hierarchical forward fill. -/
def rowBlankTriple (r : RawRow) : Bool :=
  r.job_role == "" && r.nos_code == "" && r.nos_name == ""

/-- Modelled from the spec: one forward-fill step — a blank leading triple
is replaced from the fill state, a populated one becomes the new state. -/
def fillStep (st : String × String × String) (r : RawRow) :
    (String × String × String) × RawRow :=
  if rowBlankTriple r then
    (st, { r with job_role := st.1, nos_code := st.2.1, nos_name := st.2.2 })
  else
    ((r.job_role, r.nos_code, r.nos_name), r)

/-- Modelled from the spec: the stateful forward fill in row order. -/
def forwardFillFrom (st : String × String × String) : List RawRow → List RawRow
  | [] => []
  | r :: rs =>
    let p := fillStep st r
    p.2 :: forwardFillFrom p.1 rs

/-- Modelled from the spec: forward fill of a whole file (initial state
blank). -/
def forwardFill (rows : List RawRow) : List RawRow :=
  forwardFillFrom ("", "", "") rows

/-- Modelled from the spec: drop exact duplicates, keeping the first
occurrence of each row. -/
def dedupAux (seen : List RawRow) : List RawRow → List RawRow
  | [] => []
  | r :: rs => if r ∈ seen then dedupAux seen rs else r :: dedupAux (r :: seen) rs

/-- Modelled from the spec: a row survives cleaning when its criterion
description and standard code are non-empty post-trim (section 4.1). -/
def validRow (r : RawRow) : Bool :=
  r.pc_description != "" && r.nos_code != ""

/-- Modelled from the spec: the import pipeline — trim all fields, forward
fill the leading triple in row order, skip rows with an empty criterion
description or standard code, and drop exact duplicates. -/
def importRows (rows : List RawRow) : List RawRow :=
  dedupAux [] ((forwardFillFrom ("", "", "") (rows.map trimRow)).filter validRow)

/-! ### Concrete sample data used by individual claims -/

/-- Two clean MappedStandardDetail entries (no commas or newlines in any
field) used by the claim-C4 export scenario. -/
def c4SampleDetails : List MappedStandardDetail :=
  [⟨⟨"Software Developer", "SSC/N0515", "Develop Software Applications",
     "PC1.", "understand software requirements"⟩,
    85, "close match to the summary", some "testing not covered"⟩,
   ⟨⟨"Data Analyst", "SSC/N1703", "Analyze and Interpret Data",
     "PC2.", "apply statistical methods"⟩,
    70, "related analytical skills", none⟩]

/-- A store whose only content has no summary, used by claim C1. -/
def c1Db : Db :=
  { contents := [⟨1, "Intro to Python", "Loops and functions", none⟩],
    catalog := [⟨"Software Developer", "SSC/N0515", "Develop Software Applications",
                 "PC1.", "understand software requirements"⟩],
    results := [] }

/-- A store with one summarised content and a one-record catalog, used by
claim C2. -/
def c2Db : Db :=
  { contents := [⟨1, "Intro to Python", "Loops and functions", some "python basics"⟩],
    catalog := [⟨"Software Developer", "SSC/N0515", "Develop Software Applications",
                 "PC1.", "understand software requirements"⟩],
    results := [] }

/-- An LLM response holding one genuine match and one hallucinated entry
whose codes match no catalog record, used by claim C2. -/
def c2Llm : LlmMapResponse :=
  { entries :=
      [⟨"SSC/N0515", "PC1.", 90, "direct overlap with the summary", none⟩,
       ⟨"FAKE/CODE", "PC9.", 55, "hallucinated entry", none⟩],
    overall_confidence_score := some 90,
    overall_gap_analysis := none }

/-- The MappingRecord that the claim-C2 run persists: only the genuine
match survives the hallucination guard. -/
def c2SampleRecord : MappingRecord :=
  ⟨1, none, some 90, none,
   [⟨⟨"Software Developer", "SSC/N0515", "Develop Software Applications",
      "PC1.", "understand software requirements"⟩,
     90, "direct overlap with the summary", none⟩],
   "python basics"⟩

/-- A store with one summarised content and a catalog no record of which
mentions the role used as filter, used by claim C3. -/
def c3Db : Db :=
  { contents := [⟨1, "Intro to Python", "Loops and functions", some "python basics"⟩],
    catalog := [⟨"Software Developer", "SSC/N0515", "Develop Software Applications",
                 "PC1.", "understand software requirements"⟩,
                ⟨"Data Analyst", "SSC/N1703", "Analyze and Interpret Data",
                 "PC2.", "apply statistical methods"⟩],
    results := [] }

/-- One detail entry with a gap analysis, used by the claim-C6 runs. -/
def c6SampleDetail : MappedStandardDetail :=
  ⟨⟨"Software Developer", "SSC/N0515", "Develop Software Applications",
    "PC1.", "understand software requirements"⟩,
   80, "close match", some "testing not covered"⟩

/-- A mapping response whose summary text is a distinctive marker, used to
show the PDF export emits no summary-used block (claim C6). -/
def c6Data : ContentMappingResponse :=
  { mapped_standards := [c6SampleDetail],
    overall_confidence_score := some 75,
    overall_gap_analysis := some "overall gap text",
    summary_used := "ZZSUMMARYMARKERZZ" }

/-- A hierarchical import group: a populated leader row and blank-triple
continuation rows, as in the CSV import guide, used by claim C9. -/
def c9Leader : RawRow :=
  ⟨" Software Developer ", "SSC/N0515", "Develop Software Applications",
   "PC1.", " understand software requirements "⟩

/-- The continuation rows of the claim-C9 group (blank leading triples). -/
def c9Followers : List RawRow :=
  [⟨"", "", "", "PC2.", "write clean and efficient code"⟩,
   ⟨" ", "", "", "PC3.", "test software applications"⟩,
   ⟨"", "", "", "PC3.", "test software applications"⟩]

/-! ### Theorems -/

set_option maxRecDepth 4000

/-- Claim C4: for every MappingResult, the client-side CSV export produces
one header line plus exactly one row per MappedStandardDetail, each row
having exactly 8 columns in the order job_role, standard_code,
standard_name, criterion_code, criterion_description, confidence_score,
reasoning, gap_analysis, with every field value wrapped in quotes; in
particular a MappingResult with 2 entries exports a CSV with exactly
3 lines and 8 columns per row.  Both the content-page export and the
part_000 export are covered. -/
theorem c4_csv_shape :
    (∀ details : List MappedStandardDetail,
      exportMappingResultsCsv details =
        String.intercalate "\n"
          (csvLine csvHeaderRow :: details.map (fun d => csvLine (csvDetailRow d))))
    ∧ (∀ details : List MappedStandardDetail,
        exportResultsCsv details = exportMappingResultsCsv details)
    ∧ csvHeaderRow.length = 8
    ∧ (∀ d : MappedStandardDetail,
        csvDetailRow d =
          [d.standard.job_role, d.standard.nos_code, d.standard.nos_name,
           d.standard.pc_code, d.standard.pc_description,
           toString d.confidence_score, d.reasoning, d.gap_analysis.getD ""])
    ∧ (∀ row : List String, csvLine row = String.intercalate "," (row.map quoteCell))
    ∧ (splitOnChar '\n' (exportMappingResultsCsv c4SampleDetails).data).length = 3
    ∧ ((splitOnChar '\n' (exportMappingResultsCsv c4SampleDetails).data).all
        (fun line => (splitOnChar ',' line).length == 8)) = true := by
  refine ⟨fun details => ?_, fun _ => rfl, rfl, fun d => rfl, fun row => rfl, by decide, by decide⟩
  simp only [exportMappingResultsCsv, List.map_cons, List.map_map, Function.comp_def]

/-- Claim C5: every emitted CSV cell is exactly a double quote, the raw
field value, and a closing double quote — no escaping or transformation of
embedded quotes, so a value containing a quote character yields a cell with
an odd (unbalanced) number of quote characters. -/
theorem c5_quote_wrapping_no_escape :
    (∀ v : String, quoteCell v = "\"" ++ v ++ "\"")
    ∧ (∀ v : String, (quoteCell v).length = v.length + 2)
    ∧ quoteCell "a\"b" = "\"a\"b\""
    ∧ (quoteCell "a\"b").data.count '"' = 3 := by
  refine ⟨fun v => rfl, fun v => ?_, rfl, by decide⟩
  have h1 : ("\"" : String).length = 1 := rfl
  simp [quoteCell, String.length_append, h1]
  omega

/-- Claim C7: every export artifact is named from the content title with the
fixed prefix and the title transformed character-wise — ASCII letters and
digits are kept, every other character becomes an underscore — for the CSV
export, the text-document export and the PDF export alike. -/
theorem c7_export_filenames :
    (∀ title : String,
      csvFileName title = "mapping_results_" ++ sanitizeTitle title ++ ".csv")
    ∧ (∀ title : String,
        txtFileName title = "mapping_results_" ++ sanitizeTitle title ++ ".txt")
    ∧ (∀ title : String,
        pdfFileName title = "mapping_results_" ++ sanitizeTitle title ++ ".pdf")
    ∧ (∀ t : String, (sanitizeTitle t).data = t.data.map sanitizeChar)
    ∧ (∀ c : Char, sanitizeChar c =
        if (65 ≤ c.toNat ∧ c.toNat ≤ 90) ∨ (97 ≤ c.toNat ∧ c.toNat ≤ 122) ∨
           (48 ≤ c.toNat ∧ c.toNat ≤ 57) then c else '_')
    ∧ sanitizeTitle "Intro to Python (v2)!" = "Intro_to_Python__v2__" := by
  refine ⟨fun _ => rfl, fun _ => rfl, fun _ => rfl, fun _ => rfl, fun c => ?_, by decide⟩
  apply if_congr _ rfl rfl
  simp only [sanitizeChar, Char.isAlphanum, Char.isAlpha, Char.isDigit, Char.isUpper,
    Char.isLower, Bool.or_eq_true, Bool.and_eq_true, decide_eq_true_eq, Char.toNat,
    UInt32.le_def, BitVec.le_def]
  tauto

/-- Claim C10: the CSV export of the older mapping page produces rows with
exactly 5 columns (Job Role, NOS Code, NOS Name, PC Code, PC Description),
omitting confidence_score, reasoning and gap_analysis, and wraps every cell
in the six-character literal text of an HTML-escaped quote instead of a
double-quote character, so the wrapper adds no actual quote character to
any cell. -/
theorem c10_old_mapping_csv :
    (∀ standards : List LexNormStandard,
      exportResultsOldCsv standards =
        String.intercalate "\n"
          (oldCsvLine oldCsvHeaderRow :: standards.map (fun s => oldCsvLine (oldCsvRow s))))
    ∧ oldCsvHeaderRow = ["Job Role", "NOS Code", "NOS Name", "PC Code", "PC Description"]
    ∧ (∀ s : LexNormStandard,
        oldCsvRow s = [s.job_role, s.nos_code, s.nos_name, s.pc_code, s.pc_description])
    ∧ (∀ s : LexNormStandard, (oldCsvRow s).length = 5)
    ∧ (∀ v : String, oldQuoteCell v = "&quot;" ++ v ++ "&quot;")
    ∧ ("&quot;" : String).length = 6
    ∧ (∀ v : String, (oldQuoteCell v).data.count '"' = v.data.count '"') := by
  refine ⟨fun standards => ?_, rfl, fun _ => rfl, fun _ => rfl, fun _ => rfl, by decide,
    fun v => ?_⟩
  · simp only [exportResultsOldCsv, List.map_cons, List.map_map, Function.comp_def]
  · simp [oldQuoteCell, String.data_append, List.count_append]

/-- Claim C8: an upload submission surfaces a validation error and issues
no request when the trimmed title is empty, or both file and trimmed manual
content are absent, or the type of the selected file is not among text/plain,
application/pdf, text/markdown, or the selected file exceeds 10MB; the
file checks run at selection time, leaving the form unchanged on
rejection, and an otherwise valid submission proceeds as a file-upload or
manual-create request. -/
theorem c8_upload_validation :
    (∀ (fd : UploadForm) (f : UploadFile), 10 * 1024 * 1024 < f.size →
      handleFileSelect fd f = (fd, some "File size must be less than 10MB"))
    ∧ (∀ (fd : UploadForm) (f : UploadFile),
        f.size ≤ 10 * 1024 * 1024 → f.ftype ∉ allowedTypes →
        handleFileSelect fd f =
          (fd, some "Only text (.txt), PDF (.pdf), and Markdown (.md) files are supported"))
    ∧ (∀ (fd : UploadForm) (f : UploadFile),
        f.size ≤ 10 * 1024 * 1024 → f.ftype ∈ allowedTypes →
        handleFileSelect fd f = ({ fd with file := some f }, none))
    ∧ (∀ fd : UploadForm, jsTrim fd.title = "" →
        handleSubmit fd = SubmitOutcome.validationError "Please provide a title for the content")
    ∧ (∀ fd : UploadForm, jsTrim fd.title ≠ "" → fd.file = none → jsTrim fd.content = "" →
        handleSubmit fd =
          SubmitOutcome.validationError "Please either upload a file or enter content manually")
    ∧ (∀ (fd : UploadForm) (f : UploadFile), jsTrim fd.title ≠ "" → fd.file = some f →
        handleSubmit fd = SubmitOutcome.uploadFileRequest f fd.title)
    ∧ (∀ fd : UploadForm, jsTrim fd.title ≠ "" → fd.file = none → jsTrim fd.content ≠ "" →
        handleSubmit fd = SubmitOutcome.createManualRequest fd.title fd.content) := by
  refine ⟨fun fd f h => ?_, fun fd f h1 h2 => ?_, fun fd f h1 h2 => ?_,
    fun fd h => ?_, fun fd h1 h2 h3 => ?_, fun fd f h1 h2 => ?_, fun fd h1 h2 h3 => ?_⟩
  · simp [handleFileSelect, h]
  · simp [handleFileSelect, Nat.not_lt.mpr h1, h2]
  · simp [handleFileSelect, Nat.not_lt.mpr h1, h2]
  · simp [handleSubmit, h]
  · simp [handleSubmit, h1, h2, h3]
  · simp [handleSubmit, h1, h2]
  · simp [handleSubmit, h1, h2, h3]

/-- Witness for claim C8: the seven branches exercised at concrete forms
and files. -/
theorem c8_upload_validation_witness :
    handleFileSelect ⟨"T", "", none⟩ ⟨10485761, "text/plain"⟩ =
      (⟨"T", "", none⟩, some "File size must be less than 10MB")
    ∧ handleFileSelect ⟨"T", "", none⟩ ⟨100, "image/png"⟩ =
      (⟨"T", "", none⟩, some "Only text (.txt), PDF (.pdf), and Markdown (.md) files are supported")
    ∧ handleFileSelect ⟨"T", "", none⟩ ⟨100, "text/plain"⟩ =
      (⟨"T", "", some ⟨100, "text/plain"⟩⟩, none)
    ∧ handleSubmit ⟨"   ", "body", none⟩ =
      SubmitOutcome.validationError "Please provide a title for the content"
    ∧ handleSubmit ⟨"T", "   ", none⟩ =
      SubmitOutcome.validationError "Please either upload a file or enter content manually"
    ∧ handleSubmit ⟨"T", "", some ⟨100, "text/plain"⟩⟩ =
      SubmitOutcome.uploadFileRequest ⟨100, "text/plain"⟩ "T"
    ∧ handleSubmit ⟨"T", "hello", none⟩ = SubmitOutcome.createManualRequest "T" "hello" :=
  ⟨c8_upload_validation.1 _ _ (by decide),
   c8_upload_validation.2.1 _ _ (by decide) (by decide),
   c8_upload_validation.2.2.1 _ _ (by decide) (by decide),
   c8_upload_validation.2.2.2.1 _ (by decide),
   c8_upload_validation.2.2.2.2.1 _ (by decide) rfl (by decide),
   c8_upload_validation.2.2.2.2.2.1 _ _ (by decide) rfl,
   c8_upload_validation.2.2.2.2.2.2 _ (by decide) rfl (by decide)⟩

/-- Claim C1: a mapContent call whose content resolves to a CourseContent
with a null or empty summary fails with the missing-summary precondition
error, and the stored set of MappingResults is unchanged. -/
theorem c1_missing_summary_precondition
    (db : Db) (llm : Option LlmMapResponse) (cid : Nat) (sid : Option Nat)
    (jrf : Option String) (c : CourseContent)
    (hfind : db.contents.find? (fun x => x.id == cid) = some c)
    (hsum : c.summary = none ∨ c.summary = some "") :
    mapContent db llm cid sid jrf = (db, Except.error MapError.missingSummary)
    ∧ (mapContent db llm cid sid jrf).1.results = db.results := by
  have h : mapContent db llm cid sid jrf = (db, Except.error MapError.missingSummary) := by
    unfold mapContent
    rw [hfind]
    rcases hsum with h | h <;> simp [h]
  exact ⟨h, by rw [h]⟩

/-- Witness for claim C1: a content stored without a summary makes the
mapping call fail and leaves the results untouched. -/
theorem c1_missing_summary_witness :
    mapContent c1Db none 1 none none = (c1Db, Except.error MapError.missingSummary)
    ∧ (mapContent c1Db none 1 none none).1.results = c1Db.results :=
  c1_missing_summary_precondition c1Db none 1 none none
    ⟨1, "Intro to Python", "Loops and functions", none⟩ (by decide) (Or.inl rfl)

/-- Every candidate is a catalog record. -/
theorem selectCandidates_mem (catalog : List LexNormStandard) (jrf : Option String)
    (s : LexNormStandard) (h : s ∈ selectCandidates catalog jrf) : s ∈ catalog := by
  cases jrf with
  | none => exact h
  | some f => exact (List.mem_filter.mp h).1

/-- Claim C2: whenever the mapping operation succeeds, every
MappedStandardDetail of the persisted MappingResult references a real
catalog record — entries of the LLM response whose codes match no catalog
record have been dropped. -/
theorem c2_hallucination_guard
    (db : Db) (llm : Option LlmMapResponse) (cid : Nat) (sid : Option Nat)
    (jrf : Option String) (r : MappingRecord)
    (h : (mapContent db llm cid sid jrf).2 = Except.ok r) :
    ∀ d ∈ r.mapped_standards, d.standard ∈ db.catalog := by
  unfold mapContent at h
  cases hfind : db.contents.find? (fun x => x.id == cid) with
  | none => rw [hfind] at h; simp at h
  | some c =>
    rw [hfind] at h
    dsimp only at h
    cases hsum : c.summary with
    | none => rw [hsum] at h; simp at h
    | some summ =>
      rw [hsum] at h
      dsimp only at h
      by_cases he : summ = ""
      · simp [he] at h
      · rw [if_neg he] at h
        by_cases hc : (selectCandidates db.catalog jrf).isEmpty
        · rw [if_pos hc] at h
          simp at h
          rw [← h]
          intro d hd
          simp at hd
        · rw [if_neg hc] at h
          cases llm with
          | none => simp at h
          | some resp =>
            simp at h
            rw [← h]
            intro d hd
            simp only [MappingRecord.mapped_standards] at hd
            obtain ⟨e, _, he2⟩ := List.mem_filterMap.mp hd
            unfold matchEntry at he2
            cases hf : (selectCandidates db.catalog jrf).find?
                (fun s => s.nos_code == e.standard_code && s.pc_code == e.criterion_code) with
            | none => rw [hf] at he2; simp at he2
            | some s =>
              rw [hf] at he2
              simp at he2
              have hs : s ∈ selectCandidates db.catalog jrf := List.mem_of_find?_eq_some hf
              rw [← he2]
              exact selectCandidates_mem db.catalog jrf s hs

/-- Witness for claim C2: in a run whose LLM response holds one genuine and
one hallucinated entry, the surviving persisted detail is backed by the
catalog. -/
theorem c2_hallucination_guard_witness :
    (⟨⟨"Software Developer", "SSC/N0515", "Develop Software Applications",
       "PC1.", "understand software requirements"⟩,
      90, "direct overlap with the summary", none⟩ : MappedStandardDetail).standard
      ∈ c2Db.catalog :=
  c2_hallucination_guard c2Db (some c2Llm) 1 none none c2SampleRecord rfl _ (by decide)

/-- Claim C3: a mapping invocation whose candidate selection yields zero
catalog rows succeeds and persists a MappingResult with an empty
mapped_standards list instead of failing. -/
theorem c3_empty_candidates_persisted
    (db : Db) (llm : Option LlmMapResponse) (cid : Nat) (sid : Option Nat)
    (jrf : Option String) (c : CourseContent) (summ : String)
    (hfind : db.contents.find? (fun x => x.id == cid) = some c)
    (hsum : c.summary = some summ) (hne : summ ≠ "")
    (hcand : selectCandidates db.catalog jrf = []) :
    mapContent db llm cid sid jrf =
      ({ db with results := db.results ++ [⟨cid, jrf, none, none, [], summ⟩] },
       Except.ok ⟨cid, jrf, none, none, [], summ⟩) := by
  unfold mapContent
  rw [hfind]
  dsimp only
  rw [hsum]
  dsimp only
  rw [if_neg hne]
  simp [hcand]

/-- Witness for claim C3: a job-role filter matching no catalog record
still persists a result with an empty match list. -/
theorem c3_empty_candidates_witness :
    mapContent c3Db none 1 none (some "Nonexistent Role") =
      ({ c3Db with results := c3Db.results ++
          [⟨1, some "Nonexistent Role", none, none, [], "python basics"⟩] },
       Except.ok ⟨1, some "Nonexistent Role", none, none, [], "python basics"⟩) :=
  c3_empty_candidates_persisted c3Db none 1 none (some "Nonexistent Role")
    ⟨1, "Intro to Python", "Loops and functions", some "python basics"⟩ "python basics"
    (by decide) rfl (by decide) (by decide)

/-- Rows with a blank leading triple all take the current fill state, which
they leave unchanged. -/
theorem forwardFillFrom_blank (st : String × String × String) (fs : List RawRow)
    (h : ∀ f ∈ fs, rowBlankTriple f = true) :
    ∀ r ∈ forwardFillFrom st fs,
      r.job_role = st.1 ∧ r.nos_code = st.2.1 ∧ r.nos_name = st.2.2 := by
  induction fs generalizing st with
  | nil => intro r hr; simp [forwardFillFrom] at hr
  | cons f fs ih =>
    intro r hr
    have hf := h f (List.mem_cons_self f fs)
    simp only [forwardFillFrom, fillStep, hf, if_pos] at hr
    rcases List.mem_cons.mp hr with h1 | h1
    · subst h1; exact ⟨rfl, rfl, rfl⟩
    · exact ih st (fun g hg => h g (List.mem_cons_of_mem f hg)) r h1

/-- Forward fill never changes the PC fields of a row. -/
theorem forwardFillFrom_pc (st : String × String × String) (rows : List RawRow) :
    (forwardFillFrom st rows).map (fun r => (r.pc_code, r.pc_description)) =
      rows.map (fun r => (r.pc_code, r.pc_description)) := by
  induction rows generalizing st with
  | nil => rfl
  | cons r rs ih =>
    simp only [forwardFillFrom, List.map_cons]
    rw [ih]
    unfold fillStep
    by_cases hb : rowBlankTriple r
    · simp [hb]
    · simp [hb]

/-- dedupAux keeps exactly the input rows not already seen. -/
theorem dedupAux_mem (l : List RawRow) : ∀ (seen : List RawRow) (r : RawRow),
    r ∈ dedupAux seen l ↔ (r ∈ l ∧ r ∉ seen) := by
  induction l with
  | nil => intro seen r; simp [dedupAux]
  | cons x xs ih =>
    intro seen r
    by_cases hx : x ∈ seen
    · have hxr : r = x → r ∈ seen := fun h => h ▸ hx
      simp only [dedupAux, if_pos hx, ih, List.mem_cons]
      tauto
    · have hxr : r = x → r ∉ seen := fun h => h ▸ hx
      simp only [dedupAux, if_neg hx, List.mem_cons, ih]
      tauto

/-- dedupAux yields a duplicate-free list. -/
theorem dedupAux_nodup (l : List RawRow) : ∀ seen : List RawRow, (dedupAux seen l).Nodup := by
  induction l with
  | nil => intro seen; simp [dedupAux]
  | cons x xs ih =>
    intro seen
    by_cases hx : x ∈ seen
    · simp only [dedupAux, if_pos hx]; exact ih seen
    · simp only [dedupAux, if_neg hx]
      rw [List.nodup_cons]
      refine ⟨fun hmem => ?_, ih (x :: seen)⟩
      exact ((dedupAux_mem xs (x :: seen) x).mp hmem).2 (List.mem_cons_self x seen)

/-- Claim C9: in a hierarchical import group whose leader row carries the
Job Role/NOS Code/NOS Name triple and whose following rows leave those
fields blank, the forward fill resolves every row of the group to the
trimmed triple of the leader; all fields are whitespace-trimmed (the PC fields
of the import are exactly the trimmed input PC fields, in row order), the
deduplicated import preserves exactly the filled-and-filtered row set, and
it contains no duplicate row. -/
theorem c9_hierarchical_import
    (st : String × String × String) (leader : RawRow) (followers : List RawRow)
    (hjr : (trimRow leader).job_role ≠ "")
    (hf : ∀ f ∈ followers, rowBlankTriple (trimRow f) = true)
    (rows : List RawRow) :
    (∀ r ∈ forwardFillFrom st ((leader :: followers).map trimRow),
       r.job_role = (trimRow leader).job_role ∧
       r.nos_code = (trimRow leader).nos_code ∧
       r.nos_name = (trimRow leader).nos_name)
    ∧ (importRows rows).Nodup
    ∧ (∀ r : RawRow, r ∈ importRows rows ↔
        r ∈ (forwardFillFrom ("", "", "") (rows.map trimRow)).filter validRow)
    ∧ ((forwardFillFrom st (rows.map trimRow)).map (fun r => (r.pc_code, r.pc_description)) =
        rows.map (fun r => (jsTrim r.pc_code, jsTrim r.pc_description))) := by
  refine ⟨?_, dedupAux_nodup _ [], fun r => ?_, ?_⟩
  · intro r hr
    have hb : rowBlankTriple (trimRow leader) = false := by
      unfold rowBlankTriple
      simp [hjr]
    simp only [List.map_cons, forwardFillFrom, fillStep, hb] at hr
    simp only [Bool.false_eq_true, if_false] at hr
    rcases List.mem_cons.mp hr with h1 | h1
    · subst h1; exact ⟨rfl, rfl, rfl⟩
    · have hblank : ∀ g ∈ followers.map trimRow, rowBlankTriple g = true := by
        intro g hg
        obtain ⟨g0, hg0, rfl⟩ := List.mem_map.mp hg
        exact hf g0 hg0
      exact forwardFillFrom_blank _ _ hblank r h1
  · simp [importRows, dedupAux_mem]
  · rw [forwardFillFrom_pc, List.map_map]
    rfl

/-- Witness for claim C9: the hierarchical example group of the import guide
(with a
whitespace-padded leader and an exact duplicate continuation row) resolves
every row to the trimmed leader triple. -/
theorem c9_hierarchical_import_witness :
    (∀ r ∈ forwardFillFrom ("", "", "") ((c9Leader :: c9Followers).map trimRow),
       r.job_role = (trimRow c9Leader).job_role ∧
       r.nos_code = (trimRow c9Leader).nos_code ∧
       r.nos_name = (trimRow c9Leader).nos_name)
    ∧ (importRows (c9Leader :: c9Followers)).Nodup
    ∧ (∀ r : RawRow, r ∈ importRows (c9Leader :: c9Followers) ↔
        r ∈ (forwardFillFrom ("", "", "")
              ((c9Leader :: c9Followers).map trimRow)).filter validRow)
    ∧ ((forwardFillFrom ("", "", "")
          ((c9Leader :: c9Followers).map trimRow)).map
            (fun r => (r.pc_code, r.pc_description)) =
        (c9Leader :: c9Followers).map
          (fun r => (jsTrim r.pc_code, jsTrim r.pc_description))) :=
  c9_hierarchical_import ("", "", "") c9Leader c9Followers (by decide) (by decide)
    (c9Leader :: c9Followers)

/-- emitRunLines emits text events only. -/
theorem emitRunLines_no_newPage (ls : List String) (y : Nat) :
    PdfEvent.newPage ∉ (emitRunLines ls y).1 := by
  induction ls generalizing y with
  | nil => simp [emitRunLines]
  | cons s rest ih =>
    simp only [emitRunLines, List.mem_cons]
    rintro (h | h)
    · exact PdfEvent.noConfusion h
    · exact ih (y + 6) h

/-- The body of a PDF detail block contains no page break. -/
theorem pdfDetailBody_no_newPage (split : String → List String) (i : Nat)
    (d : MappedStandardDetail) (y1 : Nat) :
    PdfEvent.newPage ∉ (pdfDetailBody split i d y1).1 := by
  unfold pdfDetailBody
  by_cases hg : jsTruthyStr d.gap_analysis
  · simp [hg, emitRunLines_no_newPage]
  · simp [hg, emitRunLines_no_newPage]

/-- Claim C6 (amended): the text document export lays its content out in
the order header block (title, overall confidence, count, timestamp,
job-role filter) → one detail block per MappedStandardDetail in list
order → overall gap-analysis block → summary-used block, as one
unpaginated text; the PDF export paginates — before each detail block a
new page starts exactly when the vertical cursor exceeds 250, and before
each overall-gap line when it exceeds 280 — but its header carries no
job-role-filter line and it emits no summary-used block (see the
counterexample). -/
theorem c6_document_export_layout
    :
    (∀ (title : String) (jrf : Option String) (generatedAt : String)
        (data : ContentMappingResponse),
      exportMappingResultsTxt title jrf generatedAt data =
        txtHeaderBlock title jrf generatedAt data ++
        txtDetailsBlock data.mapped_standards ++
        txtGapBlock data.overall_gap_analysis ++
        txtSummaryBlock data.summary_used)
    ∧ (∀ (split : String → List String) (i : Nat) (d : MappedStandardDetail) (y0 : Nat),
        250 < y0 →
        (pdfDetailEvents split i d y0).1 =
          PdfEvent.newPage :: (pdfDetailBody split i d 20).1 ∧
        PdfEvent.newPage ∉ (pdfDetailBody split i d 20).1)
    ∧ (∀ (split : String → List String) (i : Nat) (d : MappedStandardDetail) (y0 : Nat),
        y0 ≤ 250 → PdfEvent.newPage ∉ (pdfDetailEvents split i d y0).1)
    ∧ (∀ (s : String) (rest : List String) (y : Nat), 280 < y →
        (emitGapLines (s :: rest) y).1 =
          PdfEvent.newPage :: PdfEvent.text s 20 :: (emitGapLines rest 26).1)
    ∧ (∀ (s : String) (rest : List String) (y : Nat), y ≤ 280 →
        (emitGapLines (s :: rest) y).1 =
          PdfEvent.text s y :: (emitGapLines rest (y + 6)).1) := by
  refine ⟨fun title jrf generatedAt data => ?_, fun split i d y0 h => ?_,
    fun split i d y0 h => ?_, fun s rest y h => ?_, fun s rest y h => ?_⟩
  · simp [exportMappingResultsTxt, txtHeaderBlock, txtDetailsBlock, txtGapBlock,
      txtSummaryBlock, String.append_assoc]
  · exact ⟨by simp [pdfDetailEvents, if_pos h], pdfDetailBody_no_newPage split i d 20⟩
  · rw [pdfDetailEvents, if_neg (Nat.not_lt.mpr h)]
    exact pdfDetailBody_no_newPage split i d y0
  · simp [emitGapLines, if_pos h]
  · simp [emitGapLines, if_neg (Nat.not_lt.mpr h)]

/-- Witness for claim C6 (amended): the page-break behaviour exercised at
cursor positions 260 and 100 on a concrete detail block. -/
theorem c6_document_export_layout_witness :
    ((pdfDetailEvents (fun s => [s]) 0 c6SampleDetail 260).1 =
      PdfEvent.newPage :: (pdfDetailBody (fun s => [s]) 0 c6SampleDetail 20).1 ∧
     PdfEvent.newPage ∉ (pdfDetailBody (fun s => [s]) 0 c6SampleDetail 20).1)
    ∧ PdfEvent.newPage ∉ (pdfDetailEvents (fun s => [s]) 0 c6SampleDetail 100).1 :=
  ⟨c6_document_export_layout.2.1 (fun s => [s]) 0 c6SampleDetail 260 (by decide),
   c6_document_export_layout.2.2.1 (fun s => [s]) 0 c6SampleDetail 100 (by decide)⟩

/-- Counterexample for claim C6 as stated: the PDF document export of
src/unnamed/part_000 (one of the two cited document exports) emits, on a
concrete MappingResult whose summary is a distinctive marker, no text
containing that marker and no job-role-filter line — its layout has no
summary-used block and its header has no job-role filter, contradicting
the claimed content ordering. -/
theorem c6_pdf_omits_summary_counterexample :
    c6Data.summary_used = "ZZSUMMARYMARKERZZ"
    ∧ ((pdfExportEvents (fun s => [s]) (some "Course Title") c6Data "1/1/2025").all
        (fun e => match e with
          | PdfEvent.text s _ => !(strContains s "ZZSUMMARYMARKERZZ")
          | PdfEvent.newPage => true)) = true
    ∧ ((pdfExportEvents (fun s => [s]) (some "Course Title") c6Data "1/1/2025").all
        (fun e => match e with
          | PdfEvent.text s _ => !(strContains s "Job Role Filter")
          | PdfEvent.newPage => true)) = true := by
  exact ⟨rfl, by decide, by decide⟩

end LexNorm
